import Mathlib

/-!
Shallow embedding of `src/core/gridGL/interaction/usePointerEvents.ts`.

The hook translates pointer events into spreadsheet cell-selection state.
JS numbers are modelled as rationals (`ℚ`), cell indices as integers (`ℤ`).
The React `useState` fields of the hook, the externally owned
`GridInteractionState`, the viewport reference and the host's timer queue
are gathered into one explicit `HookState`; each handler is a state
transition function.  Reads inside a handler see the render-time values and
every `setX` call takes effect for the next event, which matches sequential
record updates because no handler reads a field after setting it.

Two effects on external collaborators are recorded by counters so that
frame conditions can be stated: `interactionWrites` counts the calls to
`setInteractionState`, and `doubleClickCalls` counts the invocations of the
external `onDoubleClickCanvas` callback (whose own behaviour is an external
collaborator, out of scope; it does not touch the hook's tracking fields).

Host timers: `window.setTimeout` yields a fresh positive id and enqueues a
callback; the queue is modelled as the list `pendingTimers`, the fresh id
is a parameter of `onPointerUp`, and the scheduled callback
`() => setDoubleClickTimeout(undefined)` is modelled by `fireTimer`.
Since real timer ids are nonzero, the JS truthiness test
`doubleClickTimeout && …` is modelled as `Option.isSome`.
-/

/-- Integer cell coordinates (`{x, y}` grid indices). -/
structure Coordinate where
  x : ℤ
  y : ℤ
deriving DecidableEq, Repr

/-- Continuous world/canvas coordinates (the `MousePosition` interface). -/
structure MousePosition where
  x : ℚ
  y : ℚ
deriving DecidableEq, Repr

/-- The `multiCursorPosition` rectangle. -/
structure MultiCursor where
  originPosition : Coordinate
  terminalPosition : Coordinate
deriving DecidableEq, Repr

/-- The externally owned `GridInteractionState`, restricted to the fields
this hook reads or writes. -/
structure GridInteractionState where
  cursorPosition : Coordinate
  multiCursorPosition : MultiCursor
  showMultiCursor : Bool
  keyboardMovePosition : Coordinate
  showInput : Bool
  inputInitialValue : String
deriving DecidableEq, Repr

/-- The viewport, restricted to what the hook consumes: the horizontal zoom
scale `scale.x` and the `dirty` flag it sets. -/
structure Viewport where
  scaleX : ℚ
  dirty : Bool
deriving DecidableEq, Repr

/-- The fields of a raw `PointerEvent` the hook inspects. -/
structure PointerEvent where
  button : ℕ
  ctrlKey : Bool
deriving DecidableEq, Repr

/-- The whole state a handler can read or write: the hook's `useState`
fields, the viewport reference, the external interaction state, the host
timer queue, and the two effect counters. -/
structure HookState where
  viewport : Option Viewport
  interactionState : GridInteractionState
  downPosition : Option Coordinate
  downPositionRaw : Option MousePosition
  previousPosition : Option MultiCursor
  pointerMoved : Bool
  doubleClickTimeout : Option ℕ
  pendingTimers : List ℕ
  interactionWrites : ℕ
  doubleClickCalls : ℕ
deriving DecidableEq, Repr

/-- Modelled from the spec: `CELL_WIDTH` lives in
`src/constants/gridConstants.ts`, which is not part of the staged sources;
Scenario A of the spec fixes `CELL_WIDTH = 100`. -/
def CELL_WIDTH : ℚ := 100

/-- Modelled from the spec: `CELL_HEIGHT` lives in
`src/constants/gridConstants.ts`, which is not part of the staged sources;
Scenario A of the spec fixes `CELL_HEIGHT = 20`. -/
def CELL_HEIGHT : ℚ := 20

/-- Source constant `MINIMUM_MOVE_POSITION = 5`. -/
def MINIMUM_MOVE_POSITION : ℚ := 5

/-- Source constant `DOUBLE_CLICK_TIME = 500`. -/
def DOUBLE_CLICK_TIME : ℕ := 500

/-- The spec-side world-to-cell contract (`toCell`): componentwise floor
division by the fixed cell dimensions.  Compared below with the inline
computations of `onPointerDown` and `onPointerMove`. -/
def toCell (world : MousePosition) : Coordinate :=
  ⟨⌊world.x / CELL_WIDTH⌋, ⌊world.y / CELL_HEIGHT⌋⟩

/-- Source `isDoubleClick(world, event)`: returns the boolean result together with
the successor state (the cleared timeout handle and the callback-invocation
count). -/
def isDoubleClick (s : HookState) (world : MousePosition) (event : PointerEvent) :
    Bool × HookState :=
  match s.downPositionRaw, s.viewport with
  | some downPositionRaw, some viewport =>
    if event.button = 0 then
      if s.doubleClickTimeout.isSome ∧ s.pointerMoved = false ∧
          |downPositionRaw.x - world.x| + |downPositionRaw.y - world.y| <
            MINIMUM_MOVE_POSITION * viewport.scaleX then
        (true, { s with doubleClickTimeout := none,
                        doubleClickCalls := s.doubleClickCalls + 1 })
      else (false, s)
    else (false, s)
  | _, _ => (false, s)

/-- Source `onPointerDown(world, event)`.  The source's dangling-else shape is kept
exactly: when `rightClick && showMultiCursor` holds but the clicked cell is
outside the rectangle, control falls through to the selection code. -/
def onPointerDown (s : HookState) (world : MousePosition) (event : PointerEvent) :
    HookState :=
  let consumed := isDoubleClick s world event
  if consumed.1 then consumed.2
  else
    match s.viewport with
    | none => s
    | some _ =>
      let s1 := { s with downPositionRaw := some ⟨world.x, world.y⟩ }
      let down_cell_x : ℤ := ⌊world.x / CELL_WIDTH⌋
      let down_cell_y : ℤ := ⌊world.y / CELL_HEIGHT⌋
      let rightClick := event.button = 2 ∨ (event.button = 0 ∧ event.ctrlKey)
      let select : HookState → HookState := fun st =>
        let previousPosition : MultiCursor :=
          ⟨⟨down_cell_x, down_cell_y⟩, ⟨down_cell_x, down_cell_y⟩⟩
        { st with
            downPosition := some ⟨down_cell_x, down_cell_y⟩,
            previousPosition := some previousPosition,
            interactionState := { st.interactionState with
              cursorPosition := ⟨down_cell_x, down_cell_y⟩,
              multiCursorPosition := previousPosition,
              showMultiCursor := false },
            interactionWrites := st.interactionWrites + 1,
            pointerMoved := false }
      if rightClick ∧ s1.interactionState.showMultiCursor then
        if down_cell_x ≥ s1.interactionState.multiCursorPosition.originPosition.x ∧
            down_cell_x ≤ s1.interactionState.multiCursorPosition.terminalPosition.x ∧
            down_cell_y ≥ s1.interactionState.multiCursorPosition.originPosition.y ∧
            down_cell_y ≤ s1.interactionState.multiCursorPosition.terminalPosition.y then
          s1
        else
          select s1
      else if rightClick then s1
      else select s1

/-- Source `onPointerMove(world, event)` (the event argument is unused in the
source). -/
def onPointerMove (s : HookState) (world : MousePosition) : HookState :=
  match s.viewport with
  | none => s
  | some viewport =>
    match s.downPosition, s.previousPosition, s.downPositionRaw with
    | some downPosition, some previousPosition, some downPositionRaw =>
      let s1 :=
        if s.pointerMoved = false ∧
            |downPositionRaw.x - world.x| + |downPositionRaw.y - world.y| >
              MINIMUM_MOVE_POSITION * viewport.scaleX then
          { s with pointerMoved := true }
        else s
      let move_cell_x : ℤ := ⌊world.x / CELL_WIDTH⌋
      let move_cell_y : ℤ := ⌊world.y / CELL_HEIGHT⌋
      if move_cell_x = downPosition.x ∧ move_cell_y = downPosition.y then
        { s1 with
            interactionState :=
              { keyboardMovePosition := ⟨downPosition.x, downPosition.y⟩,
                cursorPosition := ⟨downPosition.x, downPosition.y⟩,
                multiCursorPosition :=
                  ⟨⟨downPosition.x, downPosition.y⟩, ⟨downPosition.x, downPosition.y⟩⟩,
                showMultiCursor := false,
                showInput := false,
                inputInitialValue := "" },
            interactionWrites := s1.interactionWrites + 1 }
      else
        let originX := if downPosition.x < move_cell_x then downPosition.x else move_cell_x
        let originY := if downPosition.y < move_cell_y then downPosition.y else move_cell_y
        let termX := if downPosition.x > move_cell_x then downPosition.x else move_cell_x
        let termY := if downPosition.y > move_cell_y then downPosition.y else move_cell_y
        let hasMoved := ¬ (previousPosition.originPosition.x = originX ∧
            previousPosition.originPosition.y = originY ∧
            previousPosition.terminalPosition.x = termX ∧
            previousPosition.terminalPosition.y = termY)
        if hasMoved then
          { s1 with
              interactionState :=
                { keyboardMovePosition := ⟨move_cell_x, move_cell_y⟩,
                  cursorPosition := ⟨downPosition.x, downPosition.y⟩,
                  multiCursorPosition := ⟨⟨originX, originY⟩, ⟨termX, termY⟩⟩,
                  showMultiCursor := true,
                  showInput := false,
                  inputInitialValue := "" },
              viewport := some { viewport with dirty := true },
              previousPosition := some ⟨⟨originX, originY⟩, ⟨termX, termY⟩⟩,
              interactionWrites := s1.interactionWrites + 1 }
        else s1
    | _, _, _ => s

/-- Source `onPointerUp()`: `freshTimerId` is the (positive) id the host's
`window.setTimeout` returns for the newly scheduled callback; the source
never calls `clearTimeout`, so scheduling only prepends to the queue. -/
def onPointerUp (s : HookState) (freshTimerId : ℕ) : HookState :=
  let s1 :=
    if s.downPosition.isSome ∧ s.pointerMoved = false then
      { s with pendingTimers := freshTimerId :: s.pendingTimers,
               doubleClickTimeout := some freshTimerId }
    else s
  { s1 with downPosition := none, previousPosition := none }

/-- The host firing a scheduled timeout: the callback
`() => setDoubleClickTimeout(undefined)` runs and the timer leaves the
queue.  The callback clears the handle unconditionally, without checking
that the handle it clears is its own. -/
def fireTimer (s : HookState) (id : ℕ) : HookState :=
  if id ∈ s.pendingTimers then
    { s with pendingTimers := s.pendingTimers.erase id, doubleClickTimeout := none }
  else s

/-- Folding a list of pointer-move events over the state. -/
def applyMoves (s : HookState) (ws : List MousePosition) : HookState :=
  ws.foldl onPointerMove s

/-- The rectangle normalization invariant of the spec's data model. -/
def Normalized (m : MultiCursor) : Prop :=
  m.originPosition.x ≤ m.terminalPosition.x ∧ m.originPosition.y ≤ m.terminalPosition.y

instance (m : MultiCursor) : Decidable (Normalized m) := by
  unfold Normalized; infer_instance

/-! ### Concrete states for witnesses and counterexamples -/

/-- A quiescent interaction state. -/
def baseIS : GridInteractionState :=
  ⟨⟨0, 0⟩, ⟨⟨0, 0⟩, ⟨0, 0⟩⟩, false, ⟨0, 0⟩, false, ""⟩

/-- Fresh hook state: viewport at zoom 1, nothing tracked. -/
def freshState : HookState :=
  ⟨some ⟨1, false⟩, baseIS, none, none, none, false, none, [], 0, 0⟩

/-- Hook state with a shown multi-cell selection spanning cells (0,0)–(1,1). -/
def selectedState : HookState :=
  ⟨some ⟨1, false⟩, ⟨⟨0, 0⟩, ⟨⟨0, 0⟩, ⟨1, 1⟩⟩, true, ⟨0, 0⟩, false, ""⟩,
    none, none, none, false, none, [], 0, 0⟩

/-- Hook state with an armed double-click window: raw down position (0,0)
recorded, timer 3 pending, no movement. -/
def armedState : HookState :=
  ⟨some ⟨1, false⟩, baseIS, none, some ⟨0, 0⟩, none, false, some 3, [3], 0, 0⟩

/-- A primary-button event without modifiers. -/
def primaryEvent : PointerEvent := ⟨0, false⟩

/-- A secondary-button (right-click) event. -/
def rightEvent : PointerEvent := ⟨2, false⟩


/-! ### Branch predicates and result shapes -/

/-- The source's right-click classification. -/
def RightClick (ev : PointerEvent) : Prop :=
  ev.button = 2 ∨ (ev.button = 0 ∧ ev.ctrlKey = true)

instance (ev : PointerEvent) : Decidable (RightClick ev) := by
  unfold RightClick; infer_instance

/-- The clicked cell lies inside the multi-cursor rectangle, inclusive on
both axes. -/
def InsideSelection (g : GridInteractionState) (c : Coordinate) : Prop :=
  g.multiCursorPosition.originPosition.x ≤ c.x ∧
    c.x ≤ g.multiCursorPosition.terminalPosition.x ∧
    g.multiCursorPosition.originPosition.y ≤ c.y ∧
    c.y ≤ g.multiCursorPosition.terminalPosition.y

instance (g : GridInteractionState) (c : Coordinate) : Decidable (InsideSelection g c) := by
  unfold InsideSelection; infer_instance

/-- The per-axis normalized rectangle spanned by the down cell and the move
cell. -/
def rectOf (d c : Coordinate) : MultiCursor :=
  ⟨⟨min d.x c.x, min d.y c.y⟩, ⟨max d.x c.x, max d.y c.y⟩⟩

/-- The state after the accepting (selection) path of `onPointerDown`. -/
def downSelect (s : HookState) (w : MousePosition) : HookState :=
  { s with
      downPositionRaw := some ⟨w.x, w.y⟩,
      downPosition := some (toCell w),
      previousPosition := some ⟨toCell w, toCell w⟩,
      interactionState := { s.interactionState with
        cursorPosition := toCell w,
        multiCursorPosition := ⟨toCell w, toCell w⟩,
        showMultiCursor := false },
      interactionWrites := s.interactionWrites + 1,
      pointerMoved := false }

/-! ### Concrete states and traces -/

/-- First pointer-down of the stale-timer trace. -/
def staleDown1 : HookState := onPointerDown freshState ⟨10, 10⟩ primaryEvent

/-- Pointer-up pairing the first down; the host returns timer id 7. -/
def staleUp1 : HookState := onPointerUp staleDown1 7

/-- A second pointer-down far away (not a double-click). -/
def staleDown2 : HookState := onPointerDown staleUp1 ⟨1000, 1000⟩ primaryEvent

/-- Pointer-up pairing the second down; the host returns timer id 8. -/
def staleUp2 : HookState := onPointerUp staleDown2 8

/-- The pointer-down opening the same-cell gesture of the C4 counterexample. -/
def sameCellDown : HookState := onPointerDown freshState ⟨10, 10⟩ primaryEvent

/-- First pointer-move, still in the down cell. -/
def sameCellMove1 : HookState := onPointerMove sameCellDown ⟨10, 10⟩

/-- Second pointer-move, also resolving to the down cell. -/
def sameCellMove2 : HookState := onPointerMove sameCellMove1 ⟨12, 11⟩

/-- A mid-gesture state: down in cell (0,0) at raw (10,10), rectangle
collapsed to the down cell, one write so far. -/
def midGestureState : HookState :=
  ⟨some ⟨1, false⟩, baseIS, some ⟨0, 0⟩, some ⟨10, 10⟩, some ⟨⟨0, 0⟩, ⟨0, 0⟩⟩,
    false, none, [], 1, 0⟩

theorem isDoubleClick_snd (s : HookState) (w : MousePosition) (ev : PointerEvent) :
    (isDoubleClick s w ev).2 = s ∨
      (isDoubleClick s w ev).2 =
        { s with doubleClickTimeout := none,
                 doubleClickCalls := s.doubleClickCalls + 1 } := by
  unfold isDoubleClick
  rcases hraw : s.downPositionRaw with _ | raw <;> rcases hvp : s.viewport with _ | vp <;>
    simp only [hraw, hvp]
  · exact Or.inl trivial
  · exact Or.inl trivial
  · exact Or.inl trivial
  · split_ifs <;> simp

theorem onPointerDown_eq (s : HookState) (w : MousePosition) (ev : PointerEvent) :
    onPointerDown s w ev =
      if (isDoubleClick s w ev).1 = true then (isDoubleClick s w ev).2
      else if s.viewport = none then s
      else if RightClick ev ∧
          (s.interactionState.showMultiCursor = false ∨
            InsideSelection s.interactionState (toCell w)) then
        { s with downPositionRaw := some ⟨w.x, w.y⟩ }
      else downSelect s w := by
  unfold onPointerDown
  rcases hc : (isDoubleClick s w ev).1 <;> simp only [hc]
  · rcases hvp : s.viewport with _ | vp <;> simp only [hvp]
    · simp
    · simp only [Bool.false_eq_true, if_false, hvp, Option.some_ne_none]
      split_ifs with h1 h2 h3 h4
      all_goals try (simp_all [RightClick, InsideSelection, toCell, downSelect, ge_iff_le]; done)
      exfalso
      rcases h4 with ⟨-, h4 | h4⟩
      · rw [h4] at h1; simp at h1
      · refine h2 ?_
        simpa [InsideSelection, toCell, ge_iff_le, and_assoc] using h4
  · simp


theorem Coordinate_eq_iff (a b : Coordinate) : a = b ↔ a.x = b.x ∧ a.y = b.y := by
  constructor
  · rintro rfl; exact ⟨rfl, rfl⟩
  · rintro ⟨h1, h2⟩; cases a; cases b; simp_all

theorem MultiCursor_eq_iff (a b : MultiCursor) :
    a = b ↔ a.originPosition = b.originPosition ∧ a.terminalPosition = b.terminalPosition := by
  constructor
  · rintro rfl; exact ⟨rfl, rfl⟩
  · rintro ⟨h1, h2⟩; cases a; cases b; simp_all

theorem ite_lt_eq_min (a b : ℤ) : (if a < b then a else b) = min a b := by
  rw [min_def]; split_ifs <;> omega

theorem ite_gt_eq_max (a b : ℤ) : (if a > b then a else b) = max a b := by
  rw [max_def]; split_ifs <;> omega

theorem onPointerMove_inactive (s : HookState) (w : MousePosition)
    (h : s.viewport = none ∨ s.downPosition = none ∨ s.previousPosition = none ∨
      s.downPositionRaw = none) :
    onPointerMove s w = s := by
  unfold onPointerMove
  rcases hvp : s.viewport with _ | vp
  · rfl
  · rcases hd : s.downPosition with _ | d <;> rcases hp : s.previousPosition with _ | p <;>
      rcases hraw : s.downPositionRaw with _ | raw <;> simp_all

theorem onPointerMove_active (s : HookState) (w : MousePosition) (vp : Viewport)
    (d : Coordinate) (p : MultiCursor) (raw : MousePosition)
    (hvp : s.viewport = some vp) (hd : s.downPosition = some d)
    (hp : s.previousPosition = some p) (hraw : s.downPositionRaw = some raw) :
    onPointerMove s w =
      (let s1 := if s.pointerMoved = false ∧
            |raw.x - w.x| + |raw.y - w.y| > MINIMUM_MOVE_POSITION * vp.scaleX then
          { s with pointerMoved := true } else s
       if toCell w = d then
        { s1 with
            interactionState := ⟨d, ⟨d, d⟩, false, d, false, ""⟩,
            interactionWrites := s1.interactionWrites + 1 }
       else if p = rectOf d (toCell w) then s1
       else
        { s1 with
            interactionState := ⟨d, rectOf d (toCell w), true, toCell w, false, ""⟩,
            viewport := some ⟨vp.scaleX, true⟩,
            previousPosition := some (rectOf d (toCell w)),
            interactionWrites := s1.interactionWrites + 1 }) := by
  unfold onPointerMove
  simp only [hvp, hd, hp, hraw]
  simp only [ite_lt_eq_min, ite_gt_eq_max, toCell, rectOf,
    Coordinate_eq_iff, MultiCursor_eq_iff]
  split_ifs <;> simp_all <;> tauto

theorem onPointerUp_eq (s : HookState) (freshTimerId : ℕ) :
    onPointerUp s freshTimerId =
      if s.downPosition.isSome ∧ s.pointerMoved = false then
        { s with pendingTimers := freshTimerId :: s.pendingTimers,
                 doubleClickTimeout := some freshTimerId,
                 downPosition := none, previousPosition := none }
      else { s with downPosition := none, previousPosition := none } := by
  unfold onPointerUp
  split_ifs <;> rfl

theorem isDoubleClick_consumed_snd (s : HookState) (w : MousePosition) (ev : PointerEvent)
    (h : (isDoubleClick s w ev).1 = true) :
    (isDoubleClick s w ev).2 =
      { s with doubleClickTimeout := none, doubleClickCalls := s.doubleClickCalls + 1 } := by
  unfold isDoubleClick at h ⊢
  rcases hraw : s.downPositionRaw with _ | raw <;> rcases hvp : s.viewport with _ | vp <;>
    simp only [hraw, hvp] at h ⊢ <;> try simp_all
  split_ifs at h ⊢ <;> simp_all

theorem isDoubleClick_of_timeout_none (s : HookState) (w : MousePosition) (ev : PointerEvent)
    (h : s.doubleClickTimeout = none) : (isDoubleClick s w ev).1 = false := by
  unfold isDoubleClick
  rcases hraw : s.downPositionRaw with _ | raw <;> rcases hvp : s.viewport with _ | vp <;>
    simp only [hraw, hvp] <;> try rfl
  split_ifs with h1 h2 <;> simp_all

theorem onPointerMove_pointerMoved_mono (s : HookState) (w : MousePosition)
    (h : s.pointerMoved = true) : (onPointerMove s w).pointerMoved = true := by
  rcases hvp : s.viewport with _ | vp
  · rw [onPointerMove_inactive s w (Or.inl hvp)]; exact h
  rcases hd : s.downPosition with _ | d
  · rw [onPointerMove_inactive s w (Or.inr (Or.inl hd))]; exact h
  rcases hp : s.previousPosition with _ | p
  · rw [onPointerMove_inactive s w (Or.inr (Or.inr (Or.inl hp)))]; exact h
  rcases hraw : s.downPositionRaw with _ | raw
  · rw [onPointerMove_inactive s w (Or.inr (Or.inr (Or.inr hraw)))]; exact h
  rw [onPointerMove_active s w vp d p raw hvp hd hp hraw]
  simp only [h]
  split_ifs <;> simp_all

/-- C7: `onPointerUp` arms the double-click window (schedules the
`DOUBLE_CLICK_TIME` timer) if and only if a down-record exists and the
movement flag is not set; when it arms, the stored handle is the freshly
scheduled timer; and `onPointerMove` never clears the movement flag, so a
movement during the gesture keeps the subsequent pointer-up from arming. -/
theorem onPointerUp_arms_iff (s : HookState) (freshTimerId : ℕ) (w : MousePosition) :
    ((onPointerUp s freshTimerId).pendingTimers ≠ s.pendingTimers ↔
      s.downPosition.isSome = true ∧ s.pointerMoved = false) ∧
    (s.downPosition.isSome = true ∧ s.pointerMoved = false →
      (onPointerUp s freshTimerId).doubleClickTimeout = some freshTimerId ∧
        (onPointerUp s freshTimerId).pendingTimers = freshTimerId :: s.pendingTimers) ∧
    (s.pointerMoved = true → (onPointerMove s w).pointerMoved = true) := by
  rw [onPointerUp_eq]
  refine ⟨?_, ?_, fun h => onPointerMove_pointerMoved_mono s w h⟩
  · split_ifs with h
    · simpa using h
    · simpa using h
  · intro h
    rw [if_pos h]
    exact ⟨rfl, rfl⟩

theorem onPointerMove_write_shape (s : HookState) (w : MousePosition) :
    (onPointerMove s w).interactionState = s.interactionState ∨
      ∃ d, s.downPosition = some d ∧
        (onPointerMove s w).interactionState.cursorPosition = d ∧
        (onPointerMove s w).interactionState.keyboardMovePosition = toCell w ∧
        (onPointerMove s w).interactionState.showInput = false ∧
        (onPointerMove s w).interactionState.inputInitialValue = "" := by
  rcases hvp : s.viewport with _ | vp
  · rw [onPointerMove_inactive s w (Or.inl hvp)]; exact Or.inl rfl
  rcases hd : s.downPosition with _ | d
  · rw [onPointerMove_inactive s w (Or.inr (Or.inl hd))]; exact Or.inl rfl
  rcases hp : s.previousPosition with _ | p
  · rw [onPointerMove_inactive s w (Or.inr (Or.inr (Or.inl hp)))]; exact Or.inl rfl
  rcases hraw : s.downPositionRaw with _ | raw
  · rw [onPointerMove_inactive s w (Or.inr (Or.inr (Or.inr hraw)))]; exact Or.inl rfl
  rw [onPointerMove_active s w vp d p raw hvp hd hp hraw]
  simp only
  split_ifs <;>
    first
      | exact Or.inl rfl
      | (refine Or.inr ⟨d, rfl, rfl, ?_, rfl, rfl⟩; simp_all)

/-- C10: whenever `onPointerMove` writes a new `InteractionState`, the
written `cursorPosition` is the pointer-down cell (never the live move
cell, which appears only in `keyboardMovePosition`, always the cell
resolved from the current world position), `showInput` is `false` and
`inputInitialValue` is the empty string. -/
theorem move_write_cursor_is_down_cell (s : HookState) (w : MousePosition) :
    (onPointerMove s w).interactionState = s.interactionState ∨
      ∃ d, s.downPosition = some d ∧
        (onPointerMove s w).interactionState.cursorPosition = d ∧
        (onPointerMove s w).interactionState.keyboardMovePosition = toCell w ∧
        (onPointerMove s w).interactionState.showInput = false ∧
        (onPointerMove s w).interactionState.inputInitialValue = "" :=
  onPointerMove_write_shape s w

theorem onPointerMove_mcp_frame (s : HookState) (w : MousePosition) :
    (onPointerMove s w).interactionState = s.interactionState ∨
      Normalized (onPointerMove s w).interactionState.multiCursorPosition := by
  rcases hvp : s.viewport with _ | vp
  · rw [onPointerMove_inactive s w (Or.inl hvp)]; exact Or.inl rfl
  rcases hd : s.downPosition with _ | d
  · rw [onPointerMove_inactive s w (Or.inr (Or.inl hd))]; exact Or.inl rfl
  rcases hp : s.previousPosition with _ | p
  · rw [onPointerMove_inactive s w (Or.inr (Or.inr (Or.inl hp)))]; exact Or.inl rfl
  rcases hraw : s.downPositionRaw with _ | raw
  · rw [onPointerMove_inactive s w (Or.inr (Or.inr (Or.inr hraw)))]; exact Or.inl rfl
  rw [onPointerMove_active s w vp d p raw hvp hd hp hraw]
  simp only
  split_ifs <;>
    first
      | exact Or.inl rfl
      | exact Or.inr ⟨le_refl _, le_refl _⟩
      | (right; simp [Normalized, rectOf])

theorem onPointerDown_mcp_frame (s : HookState) (w : MousePosition) (ev : PointerEvent) :
    (onPointerDown s w ev).interactionState = s.interactionState ∨
      Normalized (onPointerDown s w ev).interactionState.multiCursorPosition := by
  rw [onPointerDown_eq]
  split_ifs with h1 h2 h3
  · rcases isDoubleClick_snd s w ev with h | h <;> rw [h] <;> exact Or.inl rfl
  · exact Or.inl rfl
  · exact Or.inl rfl
  · right; simp [downSelect, Normalized]

/-- C3: starting from any pointer-down and through any sequence of
pointer-moves, every `multiCursorPosition` rectangle these handlers write
into the interaction state is normalized per axis (`origin ≤ terminal` on
x and on y); when nothing was written the interaction state is still the
initial one. -/
theorem selection_rectangle_always_normalized (s : HookState) (w : MousePosition)
    (ev : PointerEvent) (moves : List MousePosition) :
    (applyMoves (onPointerDown s w ev) moves).interactionState = s.interactionState ∨
      Normalized (applyMoves (onPointerDown s w ev) moves).interactionState.multiCursorPosition := by
  have step : ∀ (ws : List MousePosition) (t : HookState),
      (t.interactionState = s.interactionState ∨ Normalized t.interactionState.multiCursorPosition) →
      ((applyMoves t ws).interactionState = s.interactionState ∨
        Normalized (applyMoves t ws).interactionState.multiCursorPosition) := by
    intro ws
    induction ws with
    | nil => intro t ht; exact ht
    | cons a l ih =>
      intro t ht
      have hnext : (onPointerMove t a).interactionState = s.interactionState ∨
          Normalized (onPointerMove t a).interactionState.multiCursorPosition := by
        rcases onPointerMove_mcp_frame t a with h | h
        · rw [h]; exact ht
        · exact Or.inr h
      exact ih (onPointerMove t a) hnext
  exact step moves (onPointerDown s w ev) (onPointerDown_mcp_frame s w ev)

/-- C1: `isDoubleClick(world, event)` returns `true` (and then invokes the
external double-click handler exactly once) if and only if the event's
button is primary, a raw down position is stored, the viewport reference is
available, the double-click window is armed (a timer handle is pending), no
movement has occurred since the paired pointer-down, and the Manhattan
distance between the stored raw down position and the new world position is
strictly below `MINIMUM_MOVE_POSITION` times the viewport's horizontal zoom
scale; in every other case (including an unavailable viewport) it returns
`false`, leaves the state untouched and invokes nothing. -/
theorem isDoubleClick_spec (s : HookState) (world : MousePosition) (event : PointerEvent) :
    ((isDoubleClick s world event).1 = true ↔
      event.button = 0 ∧
        ∃ raw vp, s.downPositionRaw = some raw ∧ s.viewport = some vp ∧
          s.doubleClickTimeout.isSome = true ∧ s.pointerMoved = false ∧
          |raw.x - world.x| + |raw.y - world.y| < MINIMUM_MOVE_POSITION * vp.scaleX) ∧
    ((isDoubleClick s world event).1 = true →
      (isDoubleClick s world event).2.doubleClickCalls = s.doubleClickCalls + 1) ∧
    ((isDoubleClick s world event).1 = false → (isDoubleClick s world event).2 = s) := by
  unfold isDoubleClick
  rcases hraw : s.downPositionRaw with _ | raw <;> rcases hvp : s.viewport with _ | vp <;>
    simp only [hraw, hvp]
  · simp
  · simp
  · simp
  · by_cases hb : event.button = 0 <;> simp only [hb, if_pos, if_neg]
    · split_ifs with hc
      · obtain ⟨h1, h2, h3⟩ := hc
        simp_all
      · simp only [true_and]
        constructor
        · simp only [false_iff]
          rintro ⟨r, v, hr, hv, ht, hm, hd⟩
          cases hr; cases hv
          exact hc ⟨ht, hm, hd⟩
        · simp
    · simp [hb]

/-- C6: world-to-cell conversion is pure, total and deterministic:
`toCell` is exactly componentwise floor division by `CELL_WIDTH` and
`CELL_HEIGHT`, any down cell `onPointerDown` records is `toCell world`, and
any `keyboardMovePosition` cell `onPointerMove` writes is `toCell world` —
both handlers resolve cells through this same mapping. -/
theorem toCell_spec (w : MousePosition) (s : HookState) (ev : PointerEvent) :
    toCell w = ⟨⌊w.x / CELL_WIDTH⌋, ⌊w.y / CELL_HEIGHT⌋⟩ ∧
    ((onPointerDown s w ev).downPosition = s.downPosition ∨
      (onPointerDown s w ev).downPosition = some (toCell w)) ∧
    ((onPointerMove s w).interactionState = s.interactionState ∨
      (onPointerMove s w).interactionState.keyboardMovePosition = toCell w) := by
  refine ⟨rfl, ?_, ?_⟩
  · rw [onPointerDown_eq]
    split_ifs with h1 h2 h3
    · rcases isDoubleClick_snd s w ev with h | h <;> rw [h] <;> exact Or.inl rfl
    · exact Or.inl rfl
    · exact Or.inl rfl
    · exact Or.inr rfl
  · rcases onPointerMove_write_shape s w with h | ⟨d, -, -, hk, -, -⟩
    · exact Or.inl h
    · exact Or.inr hk

theorem onPointerMove_dedup_noop (t : HookState) (w : MousePosition) (vp : Viewport)
    (d : Coordinate) (raw : MousePosition)
    (hvp : t.viewport = some vp) (hd : t.downPosition = some d)
    (hp : t.previousPosition = some (rectOf d (toCell w))) (hraw : t.downPositionRaw = some raw)
    (hdn : ¬ (toCell w = d)) :
    (onPointerMove t w).interactionState = t.interactionState ∧
    (onPointerMove t w).interactionWrites = t.interactionWrites ∧
    (onPointerMove t w).viewport = t.viewport := by
  rw [onPointerMove_active t w vp d (rectOf d (toCell w)) raw hvp hd hp hraw]
  simp only [if_neg hdn, if_pos rfl]
  split_ifs <;> exact ⟨rfl, rfl, rfl⟩

/-- C4 amended: for multi-cell rectangles, two consecutive pointer-moves in
the same gesture that resolve to the same cell (hence the same normalized
rectangle) cause only one interaction-state write: the second move writes
nothing and does not mark the rendering surface dirty. -/
theorem consecutive_equal_moves_single_write (s : HookState) (w1 w2 : MousePosition)
    (vp : Viewport) (d : Coordinate) (p : MultiCursor) (raw : MousePosition)
    (hvp : s.viewport = some vp) (hd : s.downPosition = some d)
    (hp : s.previousPosition = some p) (hraw : s.downPositionRaw = some raw)
    (hcell : toCell w1 = toCell w2) (hdiff : toCell w1 ≠ d) :
    (onPointerMove (onPointerMove s w1) w2).interactionState =
        (onPointerMove s w1).interactionState ∧
      (onPointerMove (onPointerMove s w1) w2).interactionWrites =
        (onPointerMove s w1).interactionWrites ∧
      (onPointerMove (onPointerMove s w1) w2).viewport = (onPointerMove s w1).viewport := by
  have hd2 : ¬ (toCell w2 = d) := fun h => hdiff (hcell.trans h)
  rw [onPointerMove_active s w1 vp d p raw hvp hd hp hraw]
  simp only [if_neg hdiff]
  split_ifs with hdedup hflag hflag
  · exact onPointerMove_dedup_noop { s with pointerMoved := true } w2 vp d raw hvp hd
      (by show s.previousPosition = _; rw [hp, hdedup, hcell]) hraw hd2
  · exact onPointerMove_dedup_noop s w2 vp d raw hvp hd
      (by rw [hp, hdedup, hcell]) hraw hd2
  · exact onPointerMove_dedup_noop
      { s with
          interactionState := ⟨d, rectOf d (toCell w1), true, toCell w1, false, ""⟩,
          viewport := some ⟨vp.scaleX, true⟩,
          previousPosition := some (rectOf d (toCell w1)),
          interactionWrites := s.interactionWrites + 1,
          pointerMoved := true }
      w2 ⟨vp.scaleX, true⟩ d raw rfl hd
      (congrArg some (congrArg (rectOf d) hcell)) hraw hd2
  · exact onPointerMove_dedup_noop
      { s with
          interactionState := ⟨d, rectOf d (toCell w1), true, toCell w1, false, ""⟩,
          viewport := some ⟨vp.scaleX, true⟩,
          previousPosition := some (rectOf d (toCell w1)),
          interactionWrites := s.interactionWrites + 1 }
      w2 ⟨vp.scaleX, true⟩ d raw rfl hd
      (congrArg some (congrArg (rectOf d) hcell)) hraw hd2

/-- C5 amended: a right-click not consumed as a double-click leaves the
interaction state unchanged and invokes no callback whenever no multi-cell
selection is shown, or a shown selection contains the clicked cell. -/
theorem right_click_swallow (s : HookState) (w : MousePosition) (ev : PointerEvent)
    (hnd : (isDoubleClick s w ev).1 = false) (hrc : RightClick ev)
    (hcase : s.interactionState.showMultiCursor = false ∨
      InsideSelection s.interactionState (toCell w)) :
    (onPointerDown s w ev).interactionState = s.interactionState ∧
    (onPointerDown s w ev).doubleClickCalls = s.doubleClickCalls := by
  rw [onPointerDown_eq, if_neg (by simp [hnd])]
  by_cases hvp : s.viewport = none
  · rw [if_pos hvp]; exact ⟨rfl, rfl⟩
  · rw [if_neg hvp, if_pos ⟨hrc, hcase⟩]; exact ⟨rfl, rfl⟩

/-- C8 amended: every `onPointerDown` with the viewport available that is
not consumed as a double-click — swallowed right-clicks included —
overwrites the stored raw down position with the event's world position. -/
theorem down_overwrites_raw (s : HookState) (w : MousePosition) (ev : PointerEvent)
    (hvp : s.viewport ≠ none) (hnd : (isDoubleClick s w ev).1 = false) :
    (onPointerDown s w ev).downPositionRaw = some ⟨w.x, w.y⟩ := by
  rw [onPointerDown_eq, if_neg (by simp [hnd]), if_neg hvp]
  split_ifs <;> rfl

/-- C9: a pointer-down consumed as a double-click creates no down-record
(given that the previous gesture's pointer-up cleared it): every following
pointer-move is a complete no-op, the following pointer-up schedules no
timer and leaves the window disarmed, and a third click straight after the
consumed one is never classified as a double-click. -/
theorem double_click_consumes_gesture (s : HookState) (w : MousePosition) (ev : PointerEvent)
    (freshTimerId : ℕ) (hdp : s.downPosition = none)
    (hcons : (isDoubleClick s w ev).1 = true) :
    (onPointerDown s w ev).downPosition = none ∧
    (∀ w2, onPointerMove (onPointerDown s w ev) w2 = onPointerDown s w ev) ∧
    (onPointerUp (onPointerDown s w ev) freshTimerId).pendingTimers =
      (onPointerDown s w ev).pendingTimers ∧
    (onPointerUp (onPointerDown s w ev) freshTimerId).doubleClickTimeout = none ∧
    (∀ w3 ev3,
      (isDoubleClick (onPointerUp (onPointerDown s w ev) freshTimerId) w3 ev3).1 = false) := by
  have hdown : onPointerDown s w ev =
      { s with doubleClickTimeout := none, doubleClickCalls := s.doubleClickCalls + 1 } := by
    rw [onPointerDown_eq, if_pos hcons]
    exact isDoubleClick_consumed_snd s w ev hcons
  rw [hdown]
  refine ⟨hdp, ?_, ?_, ?_, ?_⟩
  · intro w2
    exact onPointerMove_inactive _ w2 (Or.inr (Or.inl hdp))
  · rw [onPointerUp_eq, if_neg (by simp [hdp])]
  · rw [onPointerUp_eq, if_neg (by simp [hdp])]
  · intro w3 ev3
    rw [onPointerUp_eq, if_neg (by simp [hdp])]
    exact isDoubleClick_of_timeout_none _ w3 ev3 rfl

/-- C2 fails on the code: after down/up at (10,10) (timer 7) and down/up at
(1000,1000) (timer 8), both timers are pending at once — the source never
calls `clearTimeout` — and when the stale timer 7 fires it disarms the
window timer 8 had armed, so the prompt second click at (1000,1000) that
was a double-click before the stale expiry no longer is. -/
theorem stale_timer_never_cancelled :
    staleUp2.pendingTimers = [8, 7] ∧
    staleUp2.doubleClickTimeout = some 8 ∧
    (isDoubleClick staleUp2 ⟨1000, 1000⟩ primaryEvent).1 = true ∧
    (fireTimer staleUp2 7).doubleClickTimeout = none ∧
    (isDoubleClick (fireTimer staleUp2 7) ⟨1000, 1000⟩ primaryEvent).1 = false := by
  norm_num [staleUp2, staleDown2, staleUp1, staleDown1, onPointerDown, onPointerUp,
    isDoubleClick, fireTimer, freshState, baseIS, primaryEvent, CELL_WIDTH, CELL_HEIGHT,
    MINIMUM_MOVE_POSITION, List.erase]

/-- C4 as stated is false: two consecutive moves that both resolve to the
single down cell — hence to the same normalized rectangle — each call
`setInteractionState`; the second move performs another write. -/
theorem second_identical_move_writes_again :
    toCell ⟨10, 10⟩ = toCell ⟨12, 11⟩ ∧
    sameCellMove2.interactionState.multiCursorPosition =
      sameCellMove1.interactionState.multiCursorPosition ∧
    sameCellMove2.interactionWrites = sameCellMove1.interactionWrites + 1 := by
  norm_num [sameCellMove2, sameCellMove1, sameCellDown, onPointerDown, onPointerMove,
    isDoubleClick, freshState, baseIS, primaryEvent, toCell, CELL_WIDTH, CELL_HEIGHT,
    MINIMUM_MOVE_POSITION]

theorem consecutive_equal_moves_single_write_witness :
    (onPointerMove (onPointerMove midGestureState ⟨150, 25⟩) ⟨160, 30⟩).interactionState =
        (onPointerMove midGestureState ⟨150, 25⟩).interactionState ∧
      (onPointerMove (onPointerMove midGestureState ⟨150, 25⟩) ⟨160, 30⟩).interactionWrites =
        (onPointerMove midGestureState ⟨150, 25⟩).interactionWrites ∧
      (onPointerMove (onPointerMove midGestureState ⟨150, 25⟩) ⟨160, 30⟩).viewport =
        (onPointerMove midGestureState ⟨150, 25⟩).viewport :=
  consecutive_equal_moves_single_write midGestureState ⟨150, 25⟩ ⟨160, 30⟩ ⟨1, false⟩
    ⟨0, 0⟩ ⟨⟨0, 0⟩, ⟨0, 0⟩⟩ ⟨10, 10⟩ rfl rfl rfl rfl
    (by norm_num [toCell, CELL_WIDTH, CELL_HEIGHT])
    (by norm_num [toCell, CELL_WIDTH, CELL_HEIGHT])

/-- C5 as stated is false: a right-click while a multi-cell selection is
shown whose bounds do not contain the clicked cell is not swallowed — it
falls through to normal selection handling and changes the interaction
state. -/
theorem right_click_outside_selection_mutates_state :
    RightClick rightEvent ∧
    (isDoubleClick selectedState ⟨550, 110⟩ rightEvent).1 = false ∧
    selectedState.interactionState.showMultiCursor = true ∧
    ¬ InsideSelection selectedState.interactionState (toCell ⟨550, 110⟩) ∧
    (onPointerDown selectedState ⟨550, 110⟩ rightEvent).interactionState ≠
      selectedState.interactionState := by
  norm_num [RightClick, InsideSelection, toCell, onPointerDown, isDoubleClick,
    selectedState, CELL_WIDTH, CELL_HEIGHT, rightEvent, baseIS]

theorem right_click_swallow_witness :
    (onPointerDown selectedState ⟨50, 10⟩ rightEvent).interactionState =
        selectedState.interactionState ∧
      (onPointerDown selectedState ⟨50, 10⟩ rightEvent).doubleClickCalls =
        selectedState.doubleClickCalls :=
  right_click_swallow selectedState ⟨50, 10⟩ rightEvent rfl (Or.inl rfl)
    (Or.inr (by norm_num [InsideSelection, toCell, selectedState, CELL_WIDTH, CELL_HEIGHT]))

/-- C8 as stated is false: a pointer-down with the viewport available that
is consumed as a double-click returns before the raw down position is
stored, so the old raw position survives. -/
theorem consumed_double_click_keeps_old_raw :
    armedState.viewport.isSome = true ∧
    (isDoubleClick armedState ⟨1, 0⟩ primaryEvent).1 = true ∧
    (onPointerDown armedState ⟨1, 0⟩ primaryEvent).downPositionRaw = some ⟨0, 0⟩ ∧
    (onPointerDown armedState ⟨1, 0⟩ primaryEvent).downPositionRaw ≠ some ⟨1, 0⟩ := by
  norm_num [armedState, isDoubleClick, onPointerDown, primaryEvent, baseIS,
    MINIMUM_MOVE_POSITION]

theorem down_overwrites_raw_witness :
    (onPointerDown selectedState ⟨550, 110⟩ rightEvent).downPositionRaw =
      some ⟨550, 110⟩ :=
  down_overwrites_raw selectedState ⟨550, 110⟩ rightEvent (by simp [selectedState]) rfl

theorem double_click_consumes_gesture_witness :
    (onPointerDown armedState ⟨1, 0⟩ primaryEvent).downPosition = none ∧
    (∀ w2, onPointerMove (onPointerDown armedState ⟨1, 0⟩ primaryEvent) w2 =
      onPointerDown armedState ⟨1, 0⟩ primaryEvent) ∧
    (onPointerUp (onPointerDown armedState ⟨1, 0⟩ primaryEvent) 9).pendingTimers =
      (onPointerDown armedState ⟨1, 0⟩ primaryEvent).pendingTimers ∧
    (onPointerUp (onPointerDown armedState ⟨1, 0⟩ primaryEvent) 9).doubleClickTimeout = none ∧
    (∀ w3 ev3, (isDoubleClick
      (onPointerUp (onPointerDown armedState ⟨1, 0⟩ primaryEvent) 9) w3 ev3).1 = false) :=
  double_click_consumes_gesture armedState ⟨1, 0⟩ primaryEvent 9 rfl
    (by norm_num [isDoubleClick, armedState, primaryEvent, MINIMUM_MOVE_POSITION])
